import Mathlib

/-!
Shallow embedding of the Trip Recording Session Engine of `src/App.tsx`
(TodayRoute / Mapic).  Coordinates and distances are modelled as rationals,
epoch-millisecond timestamps as integers, ISO timestamps as the instant they
denote (an integer), and JavaScript `undefined` fields as `Option`.

The repository ships only `src/App.tsx`; the helper modules it imports
(`utils/geo.ts`, `utils/canvas.ts`, `services/geminiService.ts`, `types.ts`)
are not part of the sources.  Where their behaviour matters it is modelled
from the specification and marked as such.
-/

namespace Mapic

/-- A GPS sample (`GeoPoint` of `types.ts`, shape visible from its uses in
`src/App.tsx`): latitude, longitude, epoch-millis timestamp, and optional
horizontal accuracy in meters (`acc` absent = unknown). -/
structure GeoPoint where
  lat : ℚ
  lng : ℚ
  t : ℤ
  acc : Option ℚ
deriving DecidableEq, Repr

/-- The live sample-filter state of the App component: the accumulated
`distanceMeters`, the accepted points buffer `pointsRef`, the previous
accepted anchor `lastPointRef`, and the `gpsStatus` string. -/
structure FilterState where
  distanceMeters : ℚ
  points : List GeoPoint
  lastPoint : Option GeoPoint
  gpsStatus : String
deriving DecidableEq, Repr

/-- Initial filter state: distance 0, empty buffer, no anchor, status "Idle"
(App.tsx lines 53, 56, 79, 80). -/
def initFilterState : FilterState :=
  { distanceMeters := 0, points := [], lastPoint := none, gpsStatus := "Idle" }

/-- The guard `p.acc && p.acc > 150` of App.tsx line 101, with JavaScript
truthiness made explicit: an absent `acc` is falsy, a present numeric `acc`
is truthy iff nonzero. -/
def accTooWeak : Option ℚ → Bool
  | none => false
  | some a => decide (a ≠ 0) && decide (150 < a)

/-- The sample callback `addPoint` (App.tsx lines 100-114), parameterized by
the distance function `dist` standing for `haversineMeters` of
`utils/geo.ts` (that file is not under `src/`; every theorem below holds
for an arbitrary `dist`, in particular for the haversine distance the spec
describes). -/
def addPoint (dist : GeoPoint → GeoPoint → ℚ) (s : FilterState) (p : GeoPoint) :
    FilterState :=
  if accTooWeak p.acc then
    { s with gpsStatus := "Weak GPS ⚠️" }
  else
    let s1 := { s with gpsStatus := "Good GPS ✅" }
    match s1.lastPoint with
    | some last =>
      let d := dist last p
      if d < 1 then s1
      else { s1 with
              distanceMeters := s1.distanceMeters + d
              lastPoint := some p
              points := s1.points ++ [p] }
    | none =>
      { s1 with lastPoint := some p, points := s1.points ++ [p] }

/-- Feeding a whole sequence of raw samples through `addPoint`. -/
def runFilter (dist : GeoPoint → GeoPoint → ℚ) (s : FilterState)
    (ps : List GeoPoint) : FilterState :=
  List.foldl (addPoint dist) s ps

/-- Sum of `dist` over consecutive elements of a point list. -/
def pathSum (dist : GeoPoint → GeoPoint → ℚ) : List GeoPoint → ℚ
  | [] => 0
  | [_] => 0
  | a :: b :: rest => dist a b + pathSum dist (b :: rest)

/-- Invariant of the filter state: the anchor is the last accepted point and
the accumulated distance is the sum of consecutive distances over the
accepted points. -/
def FilterInv (dist : GeoPoint → GeoPoint → ℚ) (s : FilterState) : Prop :=
  s.lastPoint = s.points.getLast? ∧ s.distanceMeters = pathSum dist s.points

/-- The live session state while tracking: the filter state plus the
elapsed-seconds counter, `startedAt` (none before any session started),
`startTimeLabel`, the privacy flag, and the `isTracking` flag. -/
structure SessionState where
  filter : FilterState
  elapsedSec : ℕ
  startedAt : Option ℤ
  startTimeLabel : String
  isPrivate : Bool
  isTracking : Bool
deriving DecidableEq, Repr

/-- The `DraftTrip` record (shape visible from the snapshot effect,
App.tsx 152-166, and the resume branch of `startTracking`): the ISO
`startedAt` timestamp is modelled as the integer instant it denotes. -/
structure DraftTrip where
  startedAt : ℤ
  startTime : String
  isPrivate : Bool
  elapsedSec : ℕ
  distanceMeters : ℚ
  points : List GeoPoint
deriving DecidableEq, Repr

/-- The draft snapshot written every 10 seconds while tracking
(App.tsx 152-166).  `now` models `new Date()`, used only when `startedAt`
is null. -/
def snapshotDraft (now : ℤ) (s : SessionState) : DraftTrip :=
  { startedAt := s.startedAt.getD now
    startTime := s.startTimeLabel
    isPrivate := s.isPrivate
    elapsedSec := s.elapsedSec
    distanceMeters := s.filter.distanceMeters
    points := s.filter.points }

/-- The resume branch of `startTracking` (App.tsx 116-139): restores the
draft fields, sets the anchor to the last stored point (`|| null`), and
enters tracking with status "Searching...".  `fmt` stands for
`formatTimeShort`, used when the stored label is the empty string
(JavaScript `||`). -/
def resumeDraft (fmt : ℤ → String) (d : DraftTrip) : SessionState :=
  { filter :=
      { distanceMeters := d.distanceMeters
        points := d.points
        lastPoint := d.points.getLast?
        gpsStatus := "Searching..." }
    elapsedSec := d.elapsedSec
    startedAt := some d.startedAt
    startTimeLabel := if d.startTime = "" then fmt d.startedAt else d.startTime
    isPrivate := d.isPrivate
    isTracking := true }

/-- A completed `Trip` (shape visible from its construction in
`handleFinalSave`, App.tsx 248-262); `date` models the ISO timestamp as the
instant it denotes, `aiInsight` is `none` when absent. -/
structure Trip where
  id : String
  name : String
  date : ℤ
  startTime : String
  endTime : String
  isPrivate : Bool
  distanceMeters : ℚ
  durationSec : ℕ
  points : List GeoPoint
  posterPngBase64 : String
  aiInsight : Option String
  startLabel : String
  endLabel : String
deriving DecidableEq, Repr

/-- Persistence of the archive, `saveTrips` (App.tsx 20-22): the value
written to storage is the list truncated to its first 50 entries. -/
def saveTrips (trips : List Trip) : List Trip :=
  trips.take 50

/-- The `finishScreen` review-state record (App.tsx 65-75); the source's
`show` field is named `showScreen` here. -/
structure FinishScreen where
  showScreen : Bool
  startLabel : String
  endLabel : String
  points : List GeoPoint
  dist : ℚ
  time : ℕ
  start : ℤ
  startTimeStr : String
  endTimeStr : String
deriving DecidableEq, Repr

/-- Outcome of `handleFinish` (App.tsx 186-223) in a total embedding:
`stay` = declined confirmation, early return; `crash` = the unguarded
`snapPoints[0]` / `snapPoints[length-1]` access hit an empty buffer
(undefined dereference in the source); `review fs n` = the review screen
`fs` is shown after `n` reverse-geocode calls. -/
inductive FinishResult where
  | stay : FinishResult
  | crash : FinishResult
  | review : FinishScreen → ℕ → FinishResult
deriving DecidableEq, Repr

/-- The finish handler `handleFinish` (App.tsx 186-223).  `geo` stands for
the outcome of `reverseGeocode` (App.tsx 31-47), which returns a place
label, with "" on not-found/error — it never throws.  `confirmStop` is the
user's answer to the fewer-than-2-points confirmation, `fmt` is
`formatTimeShort`, `now` the finish instant.  The state effects of
`stopTracking` are not part of the returned outcome. -/
def handleFinish (geo : ℚ → ℚ → String) (confirmStop : Bool)
    (fmt : ℤ → String) (now : ℤ) (s : SessionState) : FinishResult :=
  if s.filter.points.length < 2 && !confirmStop then
    FinishResult.stay
  else
    let snapPoints := s.filter.points
    let snapDist := s.filter.distanceMeters
    let snapTime := s.elapsedSec
    let snapStart := s.startedAt.getD now
    if s.isPrivate then
      FinishResult.review
        { showScreen := true
          startLabel := "Start"
          endLabel := "End"
          points := snapPoints
          dist := snapDist
          time := snapTime
          start := snapStart
          startTimeStr := s.startTimeLabel
          endTimeStr := fmt now } 0
    else
      match snapPoints.head?, snapPoints.getLast? with
      | some p0, some pn =>
        let sRes := geo p0.lat p0.lng
        let eRes := geo pn.lat pn.lng
        FinishResult.review
          { showScreen := true
            startLabel := if sRes = "" then "Start" else sRes
            endLabel := if eRes = "" then "End" else eRes
            points := snapPoints
            dist := snapDist
            time := snapTime
            start := snapStart
            startTimeStr := s.startTimeLabel
            endTimeStr := fmt now } 2
      | _, _ => FinishResult.crash

/-- The App state touched by `handleFinalSave`: the archive, the review
screen, the selected trip, the saving flag and the privacy flag. -/
structure AppState where
  trips : List Trip
  finishScreen : Option FinishScreen
  activeTrip : Option Trip
  isSaving : Bool
  isPrivate : Bool
deriving DecidableEq, Repr

/-- Modelled from the spec: `generateTripInsight` (`services/geminiService.ts`,
not under `src/`) may fail; per §6 its caller-visible outcome is the insight
text, absent on failure ("caller treats failure as no insight"), so it is
modelled as `Option String` and does not raise into the caller. -/
@[reducible] def InsightOutcome : Type := Option String

/-- Modelled from the spec: `generatePosterPng` (`utils/canvas.ts`, not under
`src/`) may fail; per §6 "caller treats failure as fatal to commit", so its
outcome is modelled as `Except Unit String`, an error propagating into the
caller's catch. -/
@[reducible] def PosterOutcome : Type := Except Unit String

/-- The `Trip` record assembled on a successful commit
(App.tsx 248-262). -/
def mkNewTrip (newId : String) (priv : Bool) (insight : Option String)
    (poster : String) (fs : FinishScreen) : Trip :=
  { id := newId
    name := "ACTIVITY"
    date := fs.start
    startTime := fs.startTimeStr
    endTime := fs.endTimeStr
    isPrivate := priv
    distanceMeters := fs.dist
    durationSec := fs.time
    points := fs.points
    posterPngBase64 := poster
    aiInsight := insight
    startLabel := fs.startLabel
    endLabel := fs.endLabel }

/-- The commit handler `handleFinalSave` (App.tsx 225-272).  Collaborator
outcomes are passed in; `newId` models `uid()`.  Returns the new App state
together with the alert message shown in the catch branch, if any.  On
poster failure the catch only alerts and the `finally` clears `isSaving`;
on success the trip is prepended, selected, and the review screen
dismissed. -/
def handleFinalSave (insight : InsightOutcome) (posterRes : PosterOutcome)
    (newId : String) (st : AppState) : AppState × Option String :=
  match st.finishScreen with
  | none => (st, none)
  | some fs =>
    match posterRes with
    | Except.error _ =>
      ({ st with isSaving := false },
       some "Poster failed to generate, but trip is saved.")
    | Except.ok poster =>
      let newTrip := mkNewTrip newId st.isPrivate insight poster fs
      ({ st with
          trips := newTrip :: st.trips
          activeTrip := some newTrip
          finishScreen := none
          isSaving := false }, none)

/-- Concrete sample with absent accuracy, used by witnesses. -/
def pA : GeoPoint := { lat := 0, lng := 0, t := 0, acc := none }

/-- Concrete sample with good accuracy, used by witnesses. -/
def pB : GeoPoint := { lat := 0, lng := 1, t := 5000, acc := some 10 }

/-- Concrete sample with accuracy above the 150 m ceiling, used by
witnesses. -/
def pC : GeoPoint := { lat := 0, lng := 2, t := 10000, acc := some 200 }

/-- Concrete distance function assigning 2 m to every pair, used by
witnesses. -/
def dist2 : GeoPoint → GeoPoint → ℚ := fun _ _ => 2

/-- Concrete distance function assigning 0 m to every pair, used by
witnesses. -/
def distZero : GeoPoint → GeoPoint → ℚ := fun _ _ => 0

/-- Concrete time formatter, used by witnesses. -/
def fmt0 : ℤ → String := fun _ => "9:00 AM"

/-- Concrete geocoder that always fails (empty label), used by witnesses. -/
def geoEmpty : ℚ → ℚ → String := fun _ _ => ""

/-- Concrete geocoder that always resolves, used by witnesses. -/
def geoPlace : ℚ → ℚ → String := fun _ _ => "Somewhere"

/-- Concrete filter state with an anchor, used by witnesses. -/
def stateA : FilterState :=
  { distanceMeters := 0, points := [pA], lastPoint := some pA
    gpsStatus := "Good GPS ✅" }

/-- Concrete private tracking session, used by witnesses. -/
def sess0 : SessionState :=
  { filter :=
      { distanceMeters := 2, points := [pA, pB], lastPoint := some pB
        gpsStatus := "Good GPS ✅" }
    elapsedSec := 30
    startedAt := some 0
    startTimeLabel := "9:00 AM"
    isPrivate := true
    isTracking := true }

/-- Concrete public tracking session with an empty accepted-point buffer,
used by witnesses. -/
def sessEmptyPub : SessionState :=
  { filter := initFilterState
    elapsedSec := 0
    startedAt := some 0
    startTimeLabel := "9:00 AM"
    isPrivate := false
    isTracking := true }

/-- Concrete committed trip, used by witnesses. -/
def trip0 : Trip :=
  { id := "TR-0"
    name := "ACTIVITY"
    date := 0
    startTime := "9:00 AM"
    endTime := "9:30 AM"
    isPrivate := false
    distanceMeters := 5
    durationSec := 1800
    points := [pA, pB]
    posterPngBase64 := "png"
    aiInsight := none
    startLabel := "Start"
    endLabel := "End" }

/-- Concrete review screen, used by witnesses. -/
def fs0 : FinishScreen :=
  { showScreen := true
    startLabel := "A"
    endLabel := "B"
    points := [pA, pB]
    dist := 5
    time := 1800
    start := 0
    startTimeStr := "9:00 AM"
    endTimeStr := "9:30 AM" }

/-- Concrete reviewing App state, used by witnesses and the C6
counterexample. -/
def st0 : AppState :=
  { trips := []
    finishScreen := some fs0
    activeTrip := none
    isSaving := false
    isPrivate := false }

lemma pathSum_concat (dist : GeoPoint → GeoPoint → ℚ) :
    ∀ (l : List GeoPoint) (last p : GeoPoint), l.getLast? = some last →
      pathSum dist (l ++ [p]) = pathSum dist l + dist last p := by
  intro l
  induction l with
  | nil => intro last p h; simp at h
  | cons a t ih =>
    intro last p h
    cases t with
    | nil =>
      simp only [List.getLast?_singleton, Option.some.injEq] at h
      subst h
      simp [pathSum]
    | cons b t2 =>
      rw [List.getLast?_cons_cons] at h
      have h2 := ih last p h
      have e1 : (a :: b :: t2) ++ [p] = a :: (b :: (t2 ++ [p])) := by simp
      rw [e1]
      have e2 : pathSum dist (a :: (b :: (t2 ++ [p]))) =
          dist a b + pathSum dist (b :: (t2 ++ [p])) := rfl
      have e3 : pathSum dist (a :: b :: t2) = dist a b + pathSum dist (b :: t2) := rfl
      rw [List.cons_append] at h2
      rw [e2, e3, h2]
      ring

lemma addPoint_mono (dist : GeoPoint → GeoPoint → ℚ) (s : FilterState)
    (p : GeoPoint) :
    s.distanceMeters ≤ (addPoint dist s p).distanceMeters := by
  by_cases hw : accTooWeak p.acc = true
  · simp [addPoint, hw]
  · cases hl : s.lastPoint with
    | none => simp [addPoint, hw, hl]
    | some last =>
      by_cases hd : dist last p < 1
      · simp [addPoint, hw, hl, hd]
      · have h1 : (1 : ℚ) ≤ dist last p := not_lt.mp hd
        simp only [addPoint, hw, hl, hd, if_false, Bool.false_eq_true]
        simp
        linarith

lemma runFilter_mono (dist : GeoPoint → GeoPoint → ℚ) :
    ∀ (qs : List GeoPoint) (s : FilterState),
      s.distanceMeters ≤ (runFilter dist s qs).distanceMeters := by
  intro qs
  induction qs with
  | nil => intro s; simp [runFilter]
  | cons q qs ih =>
    intro s
    calc s.distanceMeters ≤ (addPoint dist s q).distanceMeters :=
          addPoint_mono dist s q
      _ ≤ (runFilter dist (addPoint dist s q) qs).distanceMeters := ih _
      _ = (runFilter dist s (q :: qs)).distanceMeters := by
          simp [runFilter, List.foldl_cons]

lemma addPoint_inv (dist : GeoPoint → GeoPoint → ℚ) (s : FilterState)
    (p : GeoPoint) (h : FilterInv dist s) : FilterInv dist (addPoint dist s p) := by
  obtain ⟨h1, h2⟩ := h
  unfold FilterInv
  by_cases hw : accTooWeak p.acc = true
  · simpa [addPoint, hw] using ⟨h1, h2⟩
  · cases hl : s.lastPoint with
    | none =>
      have hnil : s.points = [] := by
        rw [hl] at h1
        exact List.getLast?_eq_none_iff.mp h1.symm
      simp [addPoint, hw, hl, hnil, pathSum]
      rw [hnil] at h2
      simpa [pathSum] using h2
    | some last =>
      by_cases hd : dist last p < 1
      · rw [hl] at h1
        simpa [addPoint, hw, hl, hd] using ⟨h1, h2⟩
      · have hlast : s.points.getLast? = some last := by rw [← h1, hl]
        simp [addPoint, hw, hl, hd]
        rw [pathSum_concat dist s.points last p hlast, h2]

lemma runFilter_inv (dist : GeoPoint → GeoPoint → ℚ) :
    ∀ (qs : List GeoPoint) (s : FilterState),
      FilterInv dist s → FilterInv dist (runFilter dist s qs) := by
  intro qs
  induction qs with
  | nil => intro s h; simpa [runFilter] using h
  | cons q qs ih =>
    intro s h
    have : runFilter dist s (q :: qs) = runFilter dist (addPoint dist s q) qs := by
      simp [runFilter, List.foldl_cons]
    rw [this]
    exact ih _ (addPoint_inv dist s q h)

lemma addPoint_gpsStatus (dist : GeoPoint → GeoPoint → ℚ) (x : String)
    (s : FilterState) (p : GeoPoint) :
    addPoint dist { s with gpsStatus := x } p = addPoint dist s p := by
  by_cases hw : accTooWeak p.acc = true
  · simp [addPoint, hw]
  · cases hl : s.lastPoint with
    | none => simp [addPoint, hw, hl]
    | some last =>
      by_cases hd : dist last p < 1
      · simp [addPoint, hw, hl, hd]
      · simp [addPoint, hw, hl, hd]

lemma runFilter_gpsStatus (dist : GeoPoint → GeoPoint → ℚ) (x : String) :
    ∀ (ps : List GeoPoint) (s : FilterState),
      (runFilter dist { s with gpsStatus := x } ps).distanceMeters =
        (runFilter dist s ps).distanceMeters
      ∧ (runFilter dist { s with gpsStatus := x } ps).points =
        (runFilter dist s ps).points := by
  intro ps
  induction ps with
  | nil => intro s; constructor <;> simp [runFilter]
  | cons q qs ih =>
    intro s
    have e : runFilter dist { s with gpsStatus := x } (q :: qs) =
        runFilter dist (addPoint dist s q) qs := by
      simp [runFilter, List.foldl_cons, addPoint_gpsStatus]
    have e2 : runFilter dist s (q :: qs) = runFilter dist (addPoint dist s q) qs := by
      simp [runFilter, List.foldl_cons]
    rw [e, e2]
    exact ⟨rfl, rfl⟩

/-- C1: for every sequence of incoming GPS samples fed through the sample
filter from the initial state, the accumulated `distanceMeters` is
non-decreasing after each sample (every prefix of the sequence accumulates
no more than the whole), and after the whole sequence it equals the sum of
distances between consecutive accepted points only — rejected samples
contribute nothing and the first accepted point adds no distance. -/
theorem c1_distance_monotone_and_sums_accepted
    (dist : GeoPoint → GeoPoint → ℚ) (ps pre suf : List GeoPoint)
    (h : ps = pre ++ suf) :
    (runFilter dist initFilterState pre).distanceMeters ≤
      (runFilter dist initFilterState ps).distanceMeters
    ∧ (runFilter dist initFilterState ps).distanceMeters =
      pathSum dist (runFilter dist initFilterState ps).points := by
  constructor
  · subst h
    have e : runFilter dist initFilterState (pre ++ suf) =
        runFilter dist (runFilter dist initFilterState pre) suf := by
      simp [runFilter, List.foldl_append]
    rw [e]
    exact runFilter_mono dist suf _
  · have hinv : FilterInv dist initFilterState := by
      constructor <;> simp [initFilterState, pathSum]
    exact (runFilter_inv dist ps initFilterState hinv).2

/-- Witness for C1 at a concrete two-sample sequence. -/
theorem c1_witness :
    (runFilter dist2 initFilterState [pA]).distanceMeters ≤
      (runFilter dist2 initFilterState [pA, pB]).distanceMeters
    ∧ (runFilter dist2 initFilterState [pA, pB]).distanceMeters =
      pathSum dist2 (runFilter dist2 initFilterState [pA, pB]).points :=
  c1_distance_monotone_and_sums_accepted dist2 [pA, pB] [pA] [pB] rfl

/-- C2: a sample whose accuracy is present and exceeds 150 m only sets the
weak-signal status, leaving `distanceMeters`, the stored point sequence and
the previous-accepted anchor unchanged, in every filter state and whatever
the candidate's position; and a sample with absent accuracy is never
rejected on accuracy grounds — its processing always reaches the
good-signal status update. -/
theorem c2_weak_accuracy_rejected (dist : GeoPoint → GeoPoint → ℚ)
    (s : FilterState) (p q : GeoPoint) (a : ℚ)
    (hacc : p.acc = some a) (ha : 150 < a) (hq : q.acc = none) :
    addPoint dist s p = { s with gpsStatus := "Weak GPS ⚠️" }
    ∧ (addPoint dist s q).gpsStatus = "Good GPS ✅" := by
  constructor
  · have hne : a ≠ 0 := by
      intro h0
      rw [h0] at ha
      norm_num at ha
    have hw : accTooWeak p.acc = true := by
      rw [hacc]
      simp [accTooWeak, hne, ha]
    simp [addPoint, hw]
  · have hw : accTooWeak q.acc = false := by rw [hq]; rfl
    cases hl : s.lastPoint with
    | none => simp [addPoint, hw, hl]
    | some last =>
      by_cases hd : dist last q < 1
      · simp [addPoint, hw, hl, hd]
      · simp [addPoint, hw, hl, hd]

/-- Witness for C2 at a concrete weak sample and a concrete
absent-accuracy sample. -/
theorem c2_witness :
    addPoint dist2 stateA pC = { stateA with gpsStatus := "Weak GPS ⚠️" }
    ∧ (addPoint dist2 stateA pA).gpsStatus = "Good GPS ✅" :=
  c2_weak_accuracy_rejected dist2 stateA pC pA 200 rfl (by norm_num) rfl

/-- C3: a candidate that passes the accuracy check but lies strictly less
than 1 meter from the existing anchor changes nothing except performing
the good-signal status update: `distanceMeters`, the point sequence and
the anchor stay as they were, however small the candidate's accuracy. -/
theorem c3_jitter_rejected (dist : GeoPoint → GeoPoint → ℚ)
    (s : FilterState) (p last : GeoPoint)
    (hlast : s.lastPoint = some last) (hacc : accTooWeak p.acc = false)
    (hd : dist last p < 1) :
    addPoint dist s p = { s with gpsStatus := "Good GPS ✅" } := by
  simp [addPoint, hacc, hlast, hd]

/-- Witness for C3: a small-accuracy sample coinciding with the anchor is
dropped. -/
theorem c3_witness :
    addPoint distZero stateA pB = { stateA with gpsStatus := "Good GPS ✅" } :=
  c3_jitter_rejected distZero stateA pB pA rfl rfl (by norm_num [distZero])

/-- C4: committing a reviewing-state session with a failing poster-render
collaborator leaves the trip archive exactly as it was — the in-memory list,
its persisted image, and the selected trip are unchanged, so no partial or
placeholder Trip is inserted. -/
theorem c4_poster_failure_archive_unchanged (insight : InsightOutcome)
    (newId : String) (st : AppState) (fs : FinishScreen) (e : Unit)
    (hfs : st.finishScreen = some fs) :
    (handleFinalSave insight (Except.error e) newId st).1.trips = st.trips
    ∧ saveTrips (handleFinalSave insight (Except.error e) newId st).1.trips =
        saveTrips st.trips
    ∧ (handleFinalSave insight (Except.error e) newId st).1.activeTrip =
        st.activeTrip := by
  simp [handleFinalSave, hfs]

/-- Witness for C4 at a concrete reviewing state. -/
theorem c4_witness :
    (handleFinalSave none (Except.error ()) "TR-9" st0).1.trips = st0.trips
    ∧ saveTrips (handleFinalSave none (Except.error ()) "TR-9" st0).1.trips =
        saveTrips st0.trips
    ∧ (handleFinalSave none (Except.error ()) "TR-9" st0).1.activeTrip =
        st0.activeTrip :=
  c4_poster_failure_archive_unchanged none "TR-9" st0 fs0 () rfl

/-- C5: a failing insight-generation collaborator (absent outcome) does not
fail the commit: with a successful poster, the Trip is still created and
prepended to the archive, its insight field is absent, and no failure alert
is raised. -/
theorem c5_insight_failure_still_commits (posterStr newId : String)
    (st : AppState) (fs : FinishScreen) (hfs : st.finishScreen = some fs) :
    (handleFinalSave none (Except.ok posterStr) newId st).1.trips =
      mkNewTrip newId st.isPrivate none posterStr fs :: st.trips
    ∧ (mkNewTrip newId st.isPrivate none posterStr fs).aiInsight = none
    ∧ (handleFinalSave none (Except.ok posterStr) newId st).2 = none := by
  refine ⟨?_, rfl, ?_⟩ <;> simp [handleFinalSave, hfs]

/-- Witness for C5 at a concrete reviewing state. -/
theorem c5_witness :
    (handleFinalSave none (Except.ok "png") "TR-9" st0).1.trips =
      mkNewTrip "TR-9" st0.isPrivate none "png" fs0 :: st0.trips
    ∧ (mkNewTrip "TR-9" st0.isPrivate none "png" fs0).aiInsight = none
    ∧ (handleFinalSave none (Except.ok "png") "TR-9" st0).2 = none :=
  c5_insight_failure_still_commits "png" "TR-9" st0 fs0 rfl

/-- C6 counterexample: at a concrete reviewing state, a failed commit leaves
the review summary active (`finishScreen` is still set), so the session does
not return to Idle as the claim states. -/
theorem c6_counterexample :
    (handleFinalSave none (Except.error ()) "TR-1" st0).1.finishScreen ≠ none := by
  simp [handleFinalSave, st0]

/-- C6 amended: when the commit fails, the user is notified of the artifact
failure and the archive is unchanged, but the session stays in the Reviewing
state — the summary remains the active screen instead of returning to
Idle. -/
theorem c6_amended_commit_failure_stays_reviewing (insight : InsightOutcome)
    (newId : String) (st : AppState) (fs : FinishScreen) (e : Unit)
    (hfs : st.finishScreen = some fs) :
    (handleFinalSave insight (Except.error e) newId st).1.finishScreen = some fs
    ∧ (handleFinalSave insight (Except.error e) newId st).2 =
        some "Poster failed to generate, but trip is saved."
    ∧ (handleFinalSave insight (Except.error e) newId st).1.trips = st.trips := by
  refine ⟨?_, ?_, ?_⟩ <;> simp [handleFinalSave, hfs]

/-- Witness for the amended C6 at a concrete reviewing state. -/
theorem c6_amended_witness :
    (handleFinalSave none (Except.error ()) "TR-2" st0).1.finishScreen = some fs0
    ∧ (handleFinalSave none (Except.error ()) "TR-2" st0).2 =
        some "Poster failed to generate, but trip is saved."
    ∧ (handleFinalSave none (Except.error ()) "TR-2" st0).1.trips = st0.trips :=
  c6_amended_commit_failure_stays_reviewing none "TR-2" st0 fs0 () rfl

/-- C7: the persisted archive never exceeds 50 entries; a successful commit
prepends the new Trip at the front of the archive; and persisting a 51st
trip prepended to a full 50-entry archive silently drops the oldest (last)
entry. -/
theorem c7_archive_capped_newest_first (m l : List Trip) (t : Trip)
    (insight : InsightOutcome) (poster newId : String) (st : AppState)
    (fs : FinishScreen) (hlen : l.length = 50)
    (hfs : st.finishScreen = some fs) :
    (saveTrips m).length ≤ 50
    ∧ saveTrips (t :: l) = t :: l.dropLast
    ∧ (handleFinalSave insight (Except.ok poster) newId st).1.trips =
        mkNewTrip newId st.isPrivate insight poster fs :: st.trips := by
  refine ⟨?_, ?_, ?_⟩
  · simp [saveTrips]
  · have h49 : l.dropLast = l.take 49 := by
      have := List.dropLast_eq_take (l := l)
      rw [this, hlen]
    rw [h49]
    simp [saveTrips, List.take_succ_cons]
  · simp [handleFinalSave, hfs]

/-- Witness for C7 at a full 50-entry archive and a concrete commit. -/
theorem c7_witness :
    (saveTrips []).length ≤ 50
    ∧ saveTrips (trip0 :: List.replicate 50 trip0) =
        trip0 :: (List.replicate 50 trip0).dropLast
    ∧ (handleFinalSave none (Except.ok "png") "TR-3" st0).1.trips =
        mkNewTrip "TR-3" st0.isPrivate none "png" fs0 :: st0.trips :=
  c7_archive_capped_newest_first [] (List.replicate 50 trip0) trip0 none "png"
    "TR-3" st0 fs0 (by simp) rfl

/-- C8: resuming the snapshot of a live session restores exactly the
snapshotted points, distance, elapsed seconds, start time, start-time label
and privacy flag, with the last snapshotted point as the anchor; and any
further sample sequence is filtered from the resumed state exactly as from
the original live state — no distance of the restored segment is
re-added. -/
theorem c8_draft_roundtrip (fmt : ℤ → String) (dist : GeoPoint → GeoPoint → ℚ)
    (now t0 : ℤ) (s : SessionState) (ps : List GeoPoint)
    (h1 : s.startedAt = some t0) (h2 : s.startTimeLabel ≠ "")
    (h3 : s.filter.lastPoint = s.filter.points.getLast?) :
    (resumeDraft fmt (snapshotDraft now s)).filter.points = s.filter.points
    ∧ (resumeDraft fmt (snapshotDraft now s)).filter.distanceMeters =
        s.filter.distanceMeters
    ∧ (resumeDraft fmt (snapshotDraft now s)).filter.lastPoint =
        s.filter.lastPoint
    ∧ (resumeDraft fmt (snapshotDraft now s)).elapsedSec = s.elapsedSec
    ∧ (resumeDraft fmt (snapshotDraft now s)).startedAt = s.startedAt
    ∧ (resumeDraft fmt (snapshotDraft now s)).startTimeLabel = s.startTimeLabel
    ∧ (resumeDraft fmt (snapshotDraft now s)).isPrivate = s.isPrivate
    ∧ (runFilter dist (resumeDraft fmt (snapshotDraft now s)).filter ps).distanceMeters =
        (runFilter dist s.filter ps).distanceMeters
    ∧ (runFilter dist (resumeDraft fmt (snapshotDraft now s)).filter ps).points =
        (runFilter dist s.filter ps).points := by
  have efil : (resumeDraft fmt (snapshotDraft now s)).filter =
      { s.filter with gpsStatus := "Searching..." } := by
    simp [resumeDraft, snapshotDraft, h3]
  have hrun := runFilter_gpsStatus dist "Searching..." ps s.filter
  refine ⟨?_, ?_, ?_, rfl, ?_, ?_, rfl, ?_, ?_⟩
  · simp [resumeDraft, snapshotDraft]
  · simp [resumeDraft, snapshotDraft]
  · simp [resumeDraft, snapshotDraft, h3]
  · simp [resumeDraft, snapshotDraft, h1]
  · simp [resumeDraft, snapshotDraft, h2]
  · rw [efil]
    exact hrun.1
  · rw [efil]
    exact hrun.2

/-- Witness for C8 at a concrete live session and one further sample. -/
theorem c8_witness :
    (resumeDraft fmt0 (snapshotDraft 99 sess0)).filter.points = sess0.filter.points
    ∧ (resumeDraft fmt0 (snapshotDraft 99 sess0)).filter.distanceMeters =
        sess0.filter.distanceMeters
    ∧ (resumeDraft fmt0 (snapshotDraft 99 sess0)).filter.lastPoint =
        sess0.filter.lastPoint
    ∧ (resumeDraft fmt0 (snapshotDraft 99 sess0)).elapsedSec = sess0.elapsedSec
    ∧ (resumeDraft fmt0 (snapshotDraft 99 sess0)).startedAt = sess0.startedAt
    ∧ (resumeDraft fmt0 (snapshotDraft 99 sess0)).startTimeLabel =
        sess0.startTimeLabel
    ∧ (resumeDraft fmt0 (snapshotDraft 99 sess0)).isPrivate = sess0.isPrivate
    ∧ (runFilter dist2 (resumeDraft fmt0 (snapshotDraft 99 sess0)).filter [pC]).distanceMeters =
        (runFilter dist2 sess0.filter [pC]).distanceMeters
    ∧ (runFilter dist2 (resumeDraft fmt0 (snapshotDraft 99 sess0)).filter [pC]).points =
        (runFilter dist2 sess0.filter [pC]).points :=
  c8_draft_roundtrip fmt0 dist2 99 0 sess0 [pC] rfl (by simp [sess0]) rfl

/-- C9: finishing a private session is independent of the geocoding
collaborator — two runs with different geocoders give the same result —
and whenever it reaches the review screen the start and end labels are
exactly the placeholders "Start" and "End" with zero geocoding calls. -/
theorem c9_private_finish_no_geocode (g1 g2 : ℚ → ℚ → String) (c : Bool)
    (fmt : ℤ → String) (now : ℤ) (s : SessionState) (fs : FinishScreen)
    (n : ℕ) (hp : s.isPrivate = true)
    (hr : handleFinish g1 c fmt now s = FinishResult.review fs n) :
    handleFinish g1 c fmt now s = handleFinish g2 c fmt now s
    ∧ fs.startLabel = "Start" ∧ fs.endLabel = "End" ∧ n = 0 := by
  by_cases hstay : (decide (s.filter.points.length < 2) && !c) = true
  · rw [handleFinish, if_pos hstay] at hr
    cases hr
  · have e1 : handleFinish g1 c fmt now s = FinishResult.review
        { showScreen := true
          startLabel := "Start"
          endLabel := "End"
          points := s.filter.points
          dist := s.filter.distanceMeters
          time := s.elapsedSec
          start := s.startedAt.getD now
          startTimeStr := s.startTimeLabel
          endTimeStr := fmt now } 0 := by
      rw [handleFinish, if_neg hstay]
      simp [hp]
    have e2 : handleFinish g2 c fmt now s = FinishResult.review
        { showScreen := true
          startLabel := "Start"
          endLabel := "End"
          points := s.filter.points
          dist := s.filter.distanceMeters
          time := s.elapsedSec
          start := s.startedAt.getD now
          startTimeStr := s.startTimeLabel
          endTimeStr := fmt now } 0 := by
      rw [handleFinish, if_neg hstay]
      simp [hp]
    rw [e1] at hr
    injection hr with hfs hn
    refine ⟨e1.trans e2.symm, ?_, ?_, hn.symm⟩
    · rw [← hfs]
    · rw [← hfs]

/-- Witness for C9 at a concrete private session and two distinct
geocoders. -/
theorem c9_witness :
    handleFinish geoPlace true fmt0 60000 sess0 =
      handleFinish geoEmpty true fmt0 60000 sess0
    ∧ ({ showScreen := true
         startLabel := "Start"
         endLabel := "End"
         points := [pA, pB]
         dist := 2
         time := 30
         start := 0
         startTimeStr := "9:00 AM"
         endTimeStr := "9:00 AM" } : FinishScreen).startLabel = "Start"
    ∧ ({ showScreen := true
         startLabel := "Start"
         endLabel := "End"
         points := [pA, pB]
         dist := 2
         time := 30
         start := 0
         startTimeStr := "9:00 AM"
         endTimeStr := "9:00 AM" } : FinishScreen).endLabel = "End"
    ∧ (0 : ℕ) = 0 :=
  c9_private_finish_no_geocode geoPlace geoEmpty true fmt0 60000 sess0
    { showScreen := true
      startLabel := "Start"
      endLabel := "End"
      points := [pA, pB]
      dist := 2
      time := 30
      start := 0
      startTimeStr := "9:00 AM"
      endTimeStr := "9:00 AM" } 0 rfl (by rfl)

/-- C10: the finish operation on a public session reads the first and last
accepted points without an emptiness guard, and the fewer-than-2-points
confirmation allows proceeding with zero points; finishing a confirmed
public session with an empty point buffer therefore reaches the
out-of-bounds (none) branch of the total embedding — the undefined
dereference of `snapPoints[0]` in the source. -/
theorem c10_public_finish_empty_crash (geo : ℚ → ℚ → String)
    (fmt : ℤ → String) (now : ℤ) (s : SessionState)
    (h1 : s.filter.points = []) (h2 : s.isPrivate = false) :
    handleFinish geo true fmt now s = FinishResult.crash := by
  simp [handleFinish, h1, h2]

/-- Witness for C10 at a concrete empty public session. -/
theorem c10_witness :
    handleFinish geoPlace true fmt0 0 sessEmptyPub = FinishResult.crash :=
  c10_public_finish_empty_crash geoPlace fmt0 0 sessEmptyPub rfl rfl

end Mapic
